import Mathlib

/-!
Shallow embedding of the csi-local-sparse node-local storage driver.

The driver manages sparse image files under an images directory, one per
volume id, and exposes CSI controller and node RPCs over them.  We embed:

* the size constants and the capacity-range arithmetic
  (`internal/plugin/constants.go`, `calculateVolumeSize`);
* the sparse-file volume controller
  (`internal/volumes/volume_conroller.go`): `Create`, `Delete`,
  `GetVolumeSize`, `ExpandVolumeSize`, `GetDeviceByVolumeId`,
  `ResizeDeviceFileSystem`;
* the mount manager's `IsMounted` (`internal/volumes/mounter.go`);
* the RPC handlers `CreateVolume` and `NodeExpandVolume`.

The filesystem (the images directory) is modelled as an association list
from file path to logical length; host-tool interactions (`statfs` free
bytes, `losetup` output) are oracle inputs passed explicitly, since their
values live in the kernel, not in the driver.
-/

namespace CsiLocalSparse

/-! ## Constants (internal/plugin/constants.go) -/

/-- Constant `Kb = 1 << 10`. -/
def Kb : Int := 1024

/-- Constant `Mb = 1 << 20`. -/
def Mb : Int := 1048576

/-- Constant `Gb = 1 << 30`. -/
def Gb : Int := 1073741824

/-- Default size used when no capacity range is requested. -/
def defaultVolumeSize : Int := 1 * Gb

/-- Minimal supported volume size. -/
def minimumVolumeSize : Int := 1 * Gb

/-- Maximum supported volume size. -/
def maximumVolumeSize : Int := 200 * Gb

/-- Maximum count of volumes that can be created per one node. -/
def maxVolumesPerNode : Int := 200

/-! ## Capacity-range arithmetic (calculateVolumeSize) -/

/-- Structure `csi.CapacityRange`: both fields are int64; a field counts as "set"
when it is strictly positive. -/
structure CapacityRange where
  requiredBytes : Int
  limitBytes : Int
deriving DecidableEq, Repr

/-- Embedding of `Plugin.calculateVolumeSize`.  Mirrors the guard chain of
the Go function; error messages are abbreviated but distinct. -/
def calculateVolumeSize (capRange : Option CapacityRange) : Except String Int :=
  match capRange with
  | none => .ok defaultVolumeSize
  | some cr =>
    let required := cr.requiredBytes
    let limit := cr.limitBytes
    if ¬ 0 < required ∧ ¬ 0 < limit then
      .ok defaultVolumeSize
    else if 0 < required ∧ 0 < limit ∧ limit < required then
      .error "limit can't be less than required size"
    else if 0 < required ∧ required < minimumVolumeSize then
      .error "required can't be less than minimum supported volume size"
    else if 0 < limit ∧ limit < minimumVolumeSize then
      .error "limit can't be less than minimum supported volume size"
    else if 0 < required ∧ maximumVolumeSize < required then
      .error "required can't be greater than maximum supported volume size"
    else if 0 < limit ∧ maximumVolumeSize < limit then
      .error "limit can't be greater than maximum supported volume size"
    else if 0 < required ∧ 0 < limit ∧ required = limit then
      .ok limit
    else if 0 < limit then
      .ok limit
    else if 0 < required then
      .ok required
    else
      .ok defaultVolumeSize

/-- The capacity-range arithmetic as the specification words it (§4.5),
an ordered list of eight rules.  Written from the spec, to be compared
with `calculateVolumeSize`, which is written from the source. -/
def calculateVolumeSizeSpec (capRange : Option CapacityRange) : Option Int :=
  match capRange with
  | none => some defaultVolumeSize
  | some cr =>
    let rSet := 0 < cr.requiredBytes
    let lSet := 0 < cr.limitBytes
    if ¬ rSet ∧ ¬ lSet then some defaultVolumeSize
    else if rSet ∧ lSet ∧ cr.limitBytes < cr.requiredBytes then none
    else if (rSet ∧ cr.requiredBytes < minimumVolumeSize) ∨
            (lSet ∧ cr.limitBytes < minimumVolumeSize) then none
    else if (rSet ∧ maximumVolumeSize < cr.requiredBytes) ∨
            (lSet ∧ maximumVolumeSize < cr.limitBytes) then none
    else if rSet ∧ lSet ∧ cr.requiredBytes = cr.limitBytes then some cr.limitBytes
    else if lSet ∧ ¬ rSet then some cr.limitBytes
    else if rSet ∧ ¬ lSet then some cr.requiredBytes
    else some cr.limitBytes

/-- Forget the error message of an `Except` result. -/
def exceptToOption : Except String Int → Option Int
  | .ok v => some v
  | .error _ => none

/-! ## Images directory model

The images directory is an association list `path ↦ logical length`.
Every entry stands for a regular file; the driver only ever looks at a
file's presence and logical (`stat -c %s`) length. -/

/-- The images directory contents. -/
abbrev FS := List (String × Int)

/-- Look up the logical length of the file at `p`, if present. -/
def fsLookup : FS → String → Option Int
  | [], _ => none
  | (q, n) :: rest, p => if q = p then some n else fsLookup rest p

/-- Set (or create) the file at `p` with logical length `n`. -/
def fsSet : FS → String → Int → FS
  | [], p, n => [(p, n)]
  | (q, m) :: rest, p, n =>
    if q = p then (p, n) :: rest else (q, m) :: fsSet rest p n

/-- Remove the file at `p` (all entries with that path). -/
def fsRemove : FS → String → FS
  | [], _ => []
  | (q, m) :: rest, p =>
    if q = p then fsRemove rest p else (q, m) :: fsRemove rest p

/-- Logical length of the file at `p`, `0` when absent. -/
def lenAt (fs : FS) (p : String) : Int := (fsLookup fs p).getD 0

/-- Embedding of `SparseFileVolumeController.isFileExists`: `os.Stat` succeeds and the
entry is not a directory (every modelled entry is a regular file). -/
def isFileExists (fs : FS) (filename : String) : Bool :=
  (fsLookup fs filename).isSome

/-- Embedding of `strings.TrimSuffix`: drop `suffix` from the end of `s` when present. -/
def trimSuffixStr (s suffix : String) : String :=
  if suffix.toList.isSuffixOf s.toList then
    String.mk (s.toList.take (s.toList.length - suffix.toList.length))
  else s

/-- Embedding of `SparseFileVolumeController.getImageFullPath`:
`fmt.Sprintf("%s/%s.img", strings.TrimSuffix(s.imagesDir, "/"), volumeId)`. -/
def getImageFullPath (imagesDir volumeId : String) : String :=
  trimSuffixStr imagesDir "/" ++ "/" ++ volumeId ++ ".img"

/-- Effect of the host `truncate -s N file` invocation
(`SparseFileVolumeController.truncate` passes `strconv.FormatInt(sizeBytes)`
as the size).  Modelled from GNU coreutils `truncate`: the file is created
when absent; a size rendered with a leading `-` (a negative `sizeBytes`)
is a relative adjustment, clamped at zero; otherwise the size is absolute. -/
def truncateTool (fs : FS) (filename : String) (sizeBytes : Int) : FS :=
  let old := lenAt fs filename
  let newLen := if 0 ≤ sizeBytes then sizeBytes else max 0 (old + sizeBytes)
  fsSet fs filename newLen

/-! ## Sparse-file volume controller (internal/volumes/volume_conroller.go) -/

/-- Error values of the volumes package: the two sentinel errors plus the
`fmt.Errorf` values (distinct from both sentinels), tagged by message. -/
inductive VolErr where
  | volumeNotFound
  | volumeAlreadyExists
  | generic (msg : String)
deriving DecidableEq, Repr

/-- Embedding of `SparseFileVolumeController.Create`: reject empty id and zero size,
succeed without touching an existing file, otherwise `truncate` a fresh
sparse file.  Returns the result and the updated images directory. -/
def Create (imagesDir volumeId : String) (sizeBytes : Int) (fs : FS) :
    Except VolErr Unit × FS :=
  if volumeId = "" then (.error (.generic "volumeId can't be empty"), fs)
  else if sizeBytes = 0 then (.error (.generic "size can't be equal 0"), fs)
  else
    let filename := getImageFullPath imagesDir volumeId
    if isFileExists fs filename then (.ok (), fs)
    else (.ok (), truncateTool fs filename sizeBytes)

/-- Embedding of `SparseFileVolumeController.Delete`: success when the file is absent,
otherwise `rm -f` it (the tool is assumed present and successful). -/
def Delete (imagesDir volumeId : String) (fs : FS) : Except VolErr Unit × FS :=
  if volumeId = "" then (.error (.generic "volumeId can't be empty"), fs)
  else
    let filename := getImageFullPath imagesDir volumeId
    if ¬ isFileExists fs filename then (.ok (), fs)
    else (.ok (), fsRemove fs filename)

/-- Embedding of `SparseFileVolumeController.GetVolumeSize`: `stat -c %s` on the image,
assumed to report the tracked logical length when the file exists. -/
def GetVolumeSize (imagesDir volumeId : String) (fs : FS) : Except VolErr Int :=
  if volumeId = "" then .error (.generic "volumeId can't be empty")
  else
    match fsLookup fs (getImageFullPath imagesDir volumeId) with
    | none => .error .volumeNotFound
    | some size => .ok size

/-- Embedding of `SparseFileVolumeController.ExpandVolumeSize`.  `available` is the
`statfs` free-byte count of the images directory (`GetCapacity`), an
oracle input because it lives in the kernel.  The guard chain mirrors the
source: empty id, non-positive size, missing file, then the capacity check
`addSize >= available`, then `truncate` only when `addSize > 0`. -/
def ExpandVolumeSize (imagesDir volumeId : String) (newSizeBytes : Int)
    (available : Int) (fs : FS) : Except VolErr Unit × FS :=
  if volumeId = "" then (.error (.generic "volumeId can't be empty"), fs)
  else if newSizeBytes ≤ 0 then
    (.error (.generic "size can't be less or equal 0"), fs)
  else
    let filename := getImageFullPath imagesDir volumeId
    match fsLookup fs filename with
    | none => (.error .volumeNotFound, fs)
    | some currentSize =>
      let addSize := newSizeBytes - currentSize
      if available ≤ addSize then
        (.error (.generic ("addiditional space (" ++ toString addSize ++
          ") is not available. " ++ toString available ++
          " bytes is available on storage")), fs)
      else if 0 < addSize then
        (.ok (), truncateTool fs filename newSizeBytes)
      else (.ok (), fs)

/-- Embedding of `SparseFileVolumeController.GetDeviceByVolumeId`: run
`losetup --associated <image>`; `losetupOut` is the tool's (successful)
output.  The source splits the trimmed output on `:` and returns the
first component, which is `""` when nothing is associated. -/
def GetDeviceByVolumeId (imagesDir volumeId : String) (losetupOut : String)
    (fs : FS) : Except VolErr String :=
  if volumeId = "" then .error (.generic "volumeId can't be empty")
  else if ¬ isFileExists fs (getImageFullPath imagesDir volumeId) then
    .error .volumeNotFound
  else .ok (((losetupOut.trim).splitOn ":").headD "")

/-- Embedding of `SparseFileVolumeController.ResizeDeviceFileSystem`: resolve the loop
device (must be non-empty, else the not-found sentinel), then
`losetup --set-capacity` and `resize2fs`, both assumed successful. -/
def ResizeDeviceFileSystem (imagesDir volumeId : String) (losetupOut : String)
    (fs : FS) : Except VolErr Unit :=
  if volumeId = "" then .error (.generic "volumeId can't be empty")
  else if ¬ isFileExists fs (getImageFullPath imagesDir volumeId) then
    .error .volumeNotFound
  else
    match GetDeviceByVolumeId imagesDir volumeId losetupOut fs with
    | .error e => .error (.generic ("error get loop device: " ++ reprStr e))
    | .ok dev =>
      if dev = "" then .error .volumeNotFound
      else .ok ()

/-! ## Mount manager (internal/volumes/mounter.go) -/

/-- One entry of `findmnt -J`'s `filesystems` array, as unmarshalled by
`LinuxMounter.IsMounted`. -/
structure FindmntEntry where
  target : String
  propagation : String
  fstype : String
  options : String
deriving DecidableEq, Repr

/-- Outcome of the `findmnt -o TARGET,PROPAGATION,FSTYPE,OPTIONS -J -M
<target>` invocation, the oracle input of `IsMounted`:
non-zero exit with output trimming to empty; non-zero exit with output;
zero exit with empty output; zero exit with output that fails JSON
unmarshalling; or zero exit with a parsed entry list. -/
inductive FindmntResult where
  | failEmpty
  | failOutput (out : String)
  | okEmpty
  | okBadJson (msg : String)
  | okEntries (entries : List FindmntEntry)
deriving DecidableEq, Repr

/-- The entry loop of `IsMounted`: propagation is checked first (any
non-`shared` entry aborts with `(true, error)`); a target match sets the
accumulator; the loop result is `(accumulator, nil)`. -/
def isMountedLoop (target : String) : List FindmntEntry → Bool → Bool × Option String
  | [], acc => (acc, none)
  | e :: rest, acc =>
    if e.propagation ≠ "shared" then
      (true, some ("bad mount propagation (" ++ e.propagation ++
        ") for target " ++ target))
    else isMountedLoop target rest (acc || (e.target = target))

/-- Embedding of `LinuxMounter.IsMounted`, returning the Go pair `(bool, error)`. -/
def IsMounted (target : String) (r : FindmntResult) : Bool × Option String :=
  if target = "" then (false, some "isMounted target can't be empty")
  else
    match r with
    | .failEmpty => (false, none)
    | .failOutput _ => (false, some "error exec command (findmnt)")
    | .okEmpty => (false, none)
    | .okBadJson msg => (false, some ("error on unmarshal: " ++ msg))
    | .okEntries entries => isMountedLoop target entries false

/-! ## RPC façade (plugin package) -/

/-- gRPC status codes used by the handlers. -/
inductive GrpcCode where
  | invalidArgument
  | outOfRange
  | notFound
  | alreadyExists
  | resourceExhausted
  | unimplemented
  | internal
deriving DecidableEq, Repr

/-- Type `csi.VolumeCapability_AccessMode_Mode`, reduced to the one accepted
mode versus everything else. -/
inductive AccessMode where
  | singleNodeWriter
  | otherMode (name : String)
deriving DecidableEq, Repr

/-- Type `csi.VolumeCapability.AccessType`: the mount variant (with fs type and
mount flags), the block variant, or an unset/unknown variant. -/
inductive AccessType where
  | mount (fsType : String) (mountFlags : List String)
  | block
  | unspecified
deriving DecidableEq, Repr

/-- Structure `csi.VolumeCapability`. -/
structure VolumeCapability where
  accessMode : AccessMode
  accessType : AccessType
deriving DecidableEq, Repr

/-- A topology segment map (`csi.Topology.Segments`), as an association
list with the first binding of a key authoritative. -/
abbrev Segments := List (String × String)

/-- Go map lookup `segments[key]`. -/
def segLookup : Segments → String → Option String
  | [], _ => none
  | (k, v) :: rest, key => if k = key then some v else segLookup rest key

/-- Structure `csi.CreateVolumeRequest`, restricted to the fields the handler reads.
`preferred` is `AccessibilityRequirements.Preferred`. -/
structure CreateVolumeRequest where
  name : String
  volumeCapabilities : List VolumeCapability
  preferred : List Segments
  capacityRange : Option CapacityRange

/-- Structure `csi.CreateVolumeResponse`, flattened: the volume id, the advertised
capacity, and the accessible-topology segments (empty in the
already-exists reply, which carries no topology). -/
structure CreateVolumeResponse where
  volumeId : String
  capacityBytes : Int
  accessibleTopology : List (String × String)
deriving DecidableEq, Repr

/-- The plugin configuration the handlers consume: node identity, the
topology key, and the images directory of the wired
`SparseFileVolumeController`. -/
structure PluginCfg where
  nodeId : String
  nodeNameTopologyKey : String
  imagesDir : String

/-- The capability loop of `CreateVolume`: each capability must be
single-node-writer and mount-typed; the first violation yields the error. -/
def checkCapabilities (volumeId : String) :
    List VolumeCapability → Option (GrpcCode × String)
  | [] => none
  | c :: rest =>
    if c.accessMode ≠ .singleNodeWriter then
      some (.invalidArgument,
        "CreateVolume (" ++ volumeId ++ ") unsupported access mode")
    else
      match c.accessType with
      | .mount _ _ => checkCapabilities volumeId rest
      | _ => some (.invalidArgument,
          "CreateVolume (" ++ volumeId ++ ") unsupported access type")

/-- Embedding of `Plugin.CreateVolume`, wired (as in `cmd/csi-local-sparse`) to the
`SparseFileVolumeController`.  Guard order mirrors the source: name,
capabilities, preferred topology non-empty, topology key present in the
first preferred segment map, capacity arithmetic, then `Create`; the
sentinel `ErrorVolumeAlreadyExists` is answered with a topology-free
success response. -/
def CreateVolume (p : PluginCfg) (req : CreateVolumeRequest) (fs : FS) :
    Except (GrpcCode × String) CreateVolumeResponse × FS :=
  if req.name = "" then
    (.error (.invalidArgument, "CreateVolume invalid argument: name"), fs)
  else if req.volumeCapabilities.isEmpty then
    (.error (.invalidArgument, "CreateVolume (" ++ req.name ++
      ") invalid argument: volumeCapabilities"), fs)
  else
    match checkCapabilities req.name req.volumeCapabilities with
    | some e => (.error e, fs)
    | none =>
      match req.preferred with
      | [] => (.error (.invalidArgument, "CreateVolume (" ++ req.name ++
          ") invalid argument: no preferred topology set"), fs)
      | seg :: _ =>
        match segLookup seg p.nodeNameTopologyKey with
        | none => (.error (.invalidArgument, "CreateVolume (" ++ req.name ++
            ") topology key (" ++ p.nodeNameTopologyKey ++ ") not found"), fs)
        | some nodeName =>
          match calculateVolumeSize req.capacityRange with
          | .error e => (.error (.outOfRange, "CreateVolume (" ++ req.name ++
              ") invalid argument: capacityRange: " ++ e), fs)
          | .ok size =>
            match Create p.imagesDir req.name size fs with
            | (.error .volumeAlreadyExists, fs2) =>
              (.ok ⟨req.name, size, []⟩, fs2)
            | (.error _, fs2) =>
              (.error (.internal, "CreateVolume (" ++ req.name ++
                ") error create volume"), fs2)
            | (.ok _, fs2) =>
              (.ok ⟨req.name, size, [(p.nodeNameTopologyKey, nodeName)]⟩, fs2)

/-- Embedding of `Plugin.DeleteVolume`: empty id is invalid; the sentinel
`ErrorVolumeNotFound` is answered with success; other errors are internal. -/
def DeleteVolume (p : PluginCfg) (volumeId : String) (fs : FS) :
    Except (GrpcCode × String) Unit × FS :=
  if volumeId = "" then
    (.error (.invalidArgument, "DeleteVolume invalid argument: volumeId"), fs)
  else
    match Delete p.imagesDir volumeId fs with
    | (.error .volumeNotFound, fs2) => (.ok (), fs2)
    | (.error _, fs2) =>
      (.error (.internal, "DeleteVolume (" ++ volumeId ++
        ") error delete volume"), fs2)
    | (.ok _, fs2) => (.ok (), fs2)

/-- Structure `csi.NodeExpandVolumeRequest`, restricted to the fields the handler
reads. -/
structure NodeExpandVolumeRequest where
  volumeId : String
  volumeCapability : Option VolumeCapability
  capacityRange : Option CapacityRange

/-- Host-side oracle inputs of `NodeExpandVolume`: the pool free bytes
(`statfs` of the images directory) and the `losetup --associated` output. -/
structure HostEnv where
  available : Int
  losetupOut : String

/-- Embedding of `Plugin.NodeExpandVolume`: validate id and mount capability, compute
the size, `ExpandVolumeSize` (mapping the not-found sentinel to
`not_found` and every other error to `internal`), then
`ResizeDeviceFileSystem` (errors mapped to `internal`).  Returns the
response `CapacityBytes` and the updated images directory. -/
def NodeExpandVolume (p : PluginCfg) (req : NodeExpandVolumeRequest)
    (env : HostEnv) (fs : FS) : Except (GrpcCode × String) Int × FS :=
  if req.volumeId = "" then
    (.error (.invalidArgument, "NodeExpandVolume invalid argument: VolumeId"), fs)
  else
    match req.volumeCapability with
    | none => (.error (.invalidArgument, "NodeExpandVolume (" ++ req.volumeId ++
        ") invalid argument: VolumeCapability"), fs)
    | some cap =>
      match cap.accessType with
      | .mount _ _ =>
        match calculateVolumeSize req.capacityRange with
        | .error e => (.error (.outOfRange, "NodeExpandVolume (" ++
            req.volumeId ++ ") invalid argument: capacityRange: " ++ e), fs)
        | .ok size =>
          match ExpandVolumeSize p.imagesDir req.volumeId size env.available fs with
          | (.error .volumeNotFound, fs2) =>
            (.error (.notFound, "NodeExpandVolume error expand volume size: volume (" ++
              req.volumeId ++ ") not found"), fs2)
          | (.error _, fs2) =>
            (.error (.internal, "NodeExpandVolume (" ++ req.volumeId ++
              ") error expand volume size"), fs2)
          | (.ok _, fs2) =>
            match ResizeDeviceFileSystem p.imagesDir req.volumeId env.losetupOut fs2 with
            | .error _ => (.error (.internal, "NodeExpandVolume (" ++
                req.volumeId ++ ") error resize filesystem"), fs2)
            | .ok _ => (.ok size, fs2)
      | _ => (.error (.unimplemented, "NodeExpandVolume (" ++ req.volumeId ++
          ") unsupported access type"), fs)

/-- The gRPC status code of a handler result, `none` on success. -/
def statusCodeOf {α : Type} : Except (GrpcCode × String) α → Option GrpcCode
  | .ok _ => none
  | .error (c, _) => some c

/-! ## Derived forms used to state the claims -/

/-- One `ExpandVolumeSize` call: its arguments together with the pool
free bytes the kernel reports at that moment. -/
structure ExpandCall where
  volumeId : String
  newSizeBytes : Int
  available : Int

/-- Run a sequence of `ExpandVolumeSize` calls, threading the images
directory state; results (success or failure) are discarded. -/
def runExpands (imagesDir : String) (fs : FS) : List ExpandCall → FS
  | [] => fs
  | c :: rest =>
    runExpands imagesDir
      (ExpandVolumeSize imagesDir c.volumeId c.newSizeBytes c.available fs).2 rest

/-- The images directory after `n` further `CreateVolume` calls with the
same request. -/
def iterCreateVolume (p : PluginCfg) (req : CreateVolumeRequest) (fs : FS) :
    Nat → FS
  | 0 => fs
  | n + 1 => (CreateVolume p req (iterCreateVolume p req fs n)).2

/-- Whether a volume-controller result is the `ErrorVolumeAlreadyExists`
sentinel. -/
def isAlreadyExistsErr : Except VolErr Unit → Bool
  | .error .volumeAlreadyExists => true
  | _ => false

/-- Whether a volume-controller result is the `ErrorVolumeNotFound`
sentinel. -/
def isNotFoundErr : Except VolErr Unit → Bool
  | .error .volumeNotFound => true
  | _ => false

/-! ## Helper lemmas -/

lemma fsLookup_fsSet (fs : FS) (p q : String) (n : Int) :
    fsLookup (fsSet fs p n) q = if p = q then some n else fsLookup fs q := by
  induction fs with
  | nil => simp [fsSet, fsLookup]
  | cons hd tl ih =>
    obtain ⟨r, m⟩ := hd
    by_cases hrp : r = p
    · subst hrp
      simp only [fsSet, if_pos rfl, fsLookup]
      by_cases hrq : r = q <;> simp [hrq]
    · simp only [fsSet, if_neg hrp, fsLookup]
      by_cases hrq : r = q
      · subst hrq
        have hpq : ¬ p = r := fun h => hrp h.symm
        simp [hpq]
      · simp [hrq, ih]

lemma calculateVolumeSize_ok_bounds (r : Option CapacityRange) (v : Int)
    (h : calculateVolumeSize r = .ok v) :
    minimumVolumeSize ≤ v ∧ v ≤ maximumVolumeSize := by
  cases r with
  | none =>
    simp only [calculateVolumeSize, Except.ok.injEq] at h
    subst h
    simp only [defaultVolumeSize, minimumVolumeSize, maximumVolumeSize, Gb]
    omega
  | some cr =>
    simp only [calculateVolumeSize] at h
    simp only [defaultVolumeSize, minimumVolumeSize, maximumVolumeSize, Gb] at h ⊢
    split_ifs at h <;>
      simp only [Except.ok.injEq] at h <;>
      omega

/-! ## Claim theorems -/

/-- C3: the capacity-range arithmetic of `calculateVolumeSize` matches the
eight ordered rules of §4.5 for every input: no range or neither field set
gives the 1 GiB default; `limit < required`, or any set field below 1 GiB
or above 200 GiB, is an error (surfaced as `out_of_range`); both set and
equal gives that value; only limit gives limit; only required gives
required; both set and unequal gives limit. -/
theorem calculateVolumeSize_matches_spec (r : Option CapacityRange) :
    exceptToOption (calculateVolumeSize r) = calculateVolumeSizeSpec r := by
  cases r with
  | none => rfl
  | some cr =>
    simp only [calculateVolumeSize, calculateVolumeSizeSpec,
      minimumVolumeSize, maximumVolumeSize, defaultVolumeSize, Gb]
    split_ifs <;> first
      | rfl
      | (simp only [exceptToOption]; omega)

/-- C9: whenever `calculateVolumeSize` returns without error, the returned
size lies between `minimumVolumeSize` (1073741824) and `maximumVolumeSize`
(214748364800) inclusive; the nil-range and neither-field-set cases return
exactly `defaultVolumeSize`, which equals the minimum. -/
theorem calculateVolumeSize_result_bounds :
    (∀ r v, calculateVolumeSize r = .ok v →
      1073741824 ≤ v ∧ v ≤ 214748364800)
    ∧ calculateVolumeSize none = .ok defaultVolumeSize
    ∧ (∀ req lim, req ≤ 0 → lim ≤ 0 →
        calculateVolumeSize (some ⟨req, lim⟩) = .ok defaultVolumeSize)
    ∧ defaultVolumeSize = minimumVolumeSize
    ∧ minimumVolumeSize = 1073741824 ∧ maximumVolumeSize = 214748364800 := by
  refine ⟨?_, rfl, ?_, rfl, rfl, rfl⟩
  · intro r v h
    have hb := calculateVolumeSize_ok_bounds r v h
    simpa [minimumVolumeSize, maximumVolumeSize, Gb] using hb
  · intro req lim hreq hlim
    simp only [calculateVolumeSize]
    rw [if_pos]
    omega

/-- Witness for C9 at concrete inputs: a 5 GiB required-only range, and a
range with both fields non-positive. -/
theorem calculateVolumeSize_result_bounds_witness :
    ((1073741824 : Int) ≤ 5368709120 ∧ (5368709120 : Int) ≤ 214748364800)
    ∧ calculateVolumeSize (some ⟨0, -3⟩) = .ok defaultVolumeSize :=
  ⟨calculateVolumeSize_result_bounds.1 (some ⟨5368709120, 0⟩) 5368709120 (by rfl),
   calculateVolumeSize_result_bounds.2.2.1 0 (-3) (by omega) (by omega)⟩

lemma lenAt_expand_step (imagesDir volumeId : String) (newSize avail : Int)
    (fs : FS) (p : String) :
    lenAt fs p ≤ lenAt (ExpandVolumeSize imagesDir volumeId newSize avail fs).2 p := by
  by_cases h1 : volumeId = ""
  · simp [ExpandVolumeSize, h1]
  · by_cases h2 : newSize ≤ 0
    · simp [ExpandVolumeSize, h1, h2]
    · cases hl : fsLookup fs (getImageFullPath imagesDir volumeId) with
      | none => simp [ExpandVolumeSize, h1, h2, hl]
      | some cur =>
        by_cases h3 : avail ≤ newSize - cur
        · simp [ExpandVolumeSize, h1, h2, hl, h3]
        · by_cases h4 : 0 < newSize - cur
          · simp only [ExpandVolumeSize, if_neg h1, if_neg h2, hl,
              if_neg h3, if_pos h4]
            simp only [truncateTool, lenAt]
            rw [fsLookup_fsSet]
            by_cases h5 : getImageFullPath imagesDir volumeId = p
            · rw [if_pos h5, ← h5, hl]
              simp only [Option.getD_some]
              rw [if_pos (by omega : (0:Int) ≤ newSize)]
              omega
            · simp [h5]
          · simp [ExpandVolumeSize, h1, h2, hl, h3, h4]

/-- C5 (invariant I4, size monotonicity): for every file path and every
sequence of `ExpandVolumeSize` calls — successful or failed, with any
volume ids, requested sizes and reported pool free bytes — the image's
logical length never decreases. -/
theorem expand_length_monotone (imagesDir p : String) (fs : FS)
    (calls : List ExpandCall) :
    lenAt fs p ≤ lenAt (runExpands imagesDir fs calls) p := by
  induction calls generalizing fs with
  | nil => simp [runExpands]
  | cons c rest ih =>
    simp only [runExpands]
    exact le_trans
      (lenAt_expand_step imagesDir c.volumeId c.newSizeBytes c.available fs p)
      (ih _)

/-- C1 (counterexample): on a node configured with node id `n1` and
topology key `hostname`, a CreateVolume request whose preferred topology
maps `hostname` to `n2` is **not** rejected: the handler returns success,
advertises the foreign segment `hostname → n2`, and creates the image
locally — the source only checks that the key is present, never its
value. -/
theorem createVolume_cross_node_not_rejected_cex :
    CreateVolume ⟨"n1", "hostname", "/data"⟩
      ⟨"vol-a", [⟨.singleNodeWriter, .mount "" []⟩], [[("hostname", "n2")]], none⟩
      ([] : FS)
    = (.ok ⟨"vol-a", 1073741824, [("hostname", "n2")]⟩,
       [("/data/vol-a.img", 1073741824)]) := by rfl

/-- C1 (amended): CreateVolume returns `invalid_argument` with a message
mentioning the configured topology key exactly when the first preferred
topology segment map does not contain that key; a segment that maps the
key to a different node's value is accepted and its value becomes the
pinned node. -/
theorem createVolume_missing_topology_key_rejected
    (p : PluginCfg) (req : CreateVolumeRequest) (fs : FS)
    (seg : Segments) (rest : List Segments)
    (hname : ¬ req.name = "")
    (hcaps : req.volumeCapabilities.isEmpty = false)
    (hok : checkCapabilities req.name req.volumeCapabilities = none)
    (hpref : req.preferred = seg :: rest)
    (hkey : segLookup seg p.nodeNameTopologyKey = none) :
    CreateVolume p req fs =
      (.error (.invalidArgument, "CreateVolume (" ++ req.name ++
        ") topology key (" ++ p.nodeNameTopologyKey ++ ") not found"), fs)
    ∧ ∃ a b : String,
        "CreateVolume (" ++ req.name ++ ") topology key (" ++
          p.nodeNameTopologyKey ++ ") not found"
        = a ++ p.nodeNameTopologyKey ++ b := by
  constructor
  · simp [CreateVolume, hname, hcaps, hok, hpref, hkey]
  · exact ⟨"CreateVolume (" ++ req.name ++ ") topology key (", ") not found", rfl⟩

/-- Witness for the amended C1 at a concrete request whose preferred
segment map holds only the key `zone`, foreign to the configured
`hostname`. -/
theorem createVolume_missing_topology_key_rejected_witness :
    CreateVolume ⟨"n1", "hostname", "/data"⟩
      ⟨"vol-a", [⟨.singleNodeWriter, .mount "" []⟩], [[("zone", "a")]], none⟩
      ([] : FS)
    = (.error (.invalidArgument, "CreateVolume (" ++ "vol-a" ++
        ") topology key (" ++ "hostname" ++ ") not found"), ([] : FS))
    ∧ ∃ a b : String,
        "CreateVolume (" ++ "vol-a" ++ ") topology key (" ++
          "hostname" ++ ") not found"
        = a ++ "hostname" ++ b :=
  createVolume_missing_topology_key_rejected
    ⟨"n1", "hostname", "/data"⟩
    ⟨"vol-a", [⟨.singleNodeWriter, .mount "" []⟩], [[("zone", "a")]], none⟩
    ([] : FS) [("zone", "a")] []
    (by decide) rfl rfl rfl rfl

/-- C4 (failing input): with a 5-byte image, `ExpandVolumeSize` to the
same size 5 while the pool reports 0 free bytes returns the no-space
error instead of succeeding — the capacity guard `addSize >= available`
runs before the no-op `newSize ≤ current` check, contradicting the
function's own documentation ("Returns nil if newSize <= currentSize"). -/
theorem expand_noop_with_zero_free_fails :
    ExpandVolumeSize "/data" "v" 5 0 [("/data/v.img", 5)]
      = (.error (.generic
          "addiditional space (0) is not available. 0 bytes is available on storage"),
         [("/data/v.img", 5)]) := by rfl

/-- C6 (failing input): `Create` only rejects size 0, not negatives:
with no image present, `Create` at size −1 passes the guard, invokes
`truncate -s -1` (which creates the file, clamped at length 0) and
returns success — instead of erroring and creating no file. -/
theorem create_negative_size_succeeds :
    Create "/data" "v" (-1) ([] : FS) = (.ok (), [("/data/v.img", 0)]) := by rfl

/-- C2 (counterexample): with a 1 GiB image of `vol-a`, 0 free pool bytes
and a 2 GiB expansion request (grow-delta 1 GiB ≥ 0 free), the failed
NodeExpandVolume carries status `internal`, not `resource_exhausted`; the
image length is unchanged. -/
theorem nodeExpandVolume_no_space_not_resource_exhausted_cex :
    statusCodeOf (NodeExpandVolume ⟨"n1", "hostname", "/data"⟩
      ⟨"vol-a", some ⟨.singleNodeWriter, .mount "" []⟩, some ⟨2147483648, 0⟩⟩
      ⟨0, ""⟩ [("/data/vol-a.img", 1073741824)]).1 = some GrpcCode.internal
    ∧ (NodeExpandVolume ⟨"n1", "hostname", "/data"⟩
      ⟨"vol-a", some ⟨.singleNodeWriter, .mount "" []⟩, some ⟨2147483648, 0⟩⟩
      ⟨0, ""⟩ [("/data/vol-a.img", 1073741824)]).2
      = [("/data/vol-a.img", 1073741824)]
    ∧ decide (GrpcCode.internal = GrpcCode.resourceExhausted) = false :=
  ⟨by rfl, by rfl, by rfl⟩

/-- C2 (amended): when the requested expansion's grow-delta is at least
the pool's free bytes, `NodeExpandVolume` fails with the **internal**
status code (the no-space error is a generic error not mapped to
`resource_exhausted`), and the image file's length — indeed the whole
images directory — is unchanged by the failed call. -/
theorem nodeExpandVolume_no_space_internal
    (p : PluginCfg) (req : NodeExpandVolumeRequest) (env : HostEnv) (fs : FS)
    (cap : VolumeCapability) (fsT : String) (flags : List String)
    (cur size : Int)
    (hid : ¬ req.volumeId = "")
    (hcap : req.volumeCapability = some cap)
    (hmount : cap.accessType = .mount fsT flags)
    (hsize : calculateVolumeSize req.capacityRange = .ok size)
    (hcur : fsLookup fs (getImageFullPath p.imagesDir req.volumeId) = some cur)
    (hdelta : env.available ≤ size - cur) :
    statusCodeOf (NodeExpandVolume p req env fs).1 = some GrpcCode.internal
    ∧ (NodeExpandVolume p req env fs).2 = fs := by
  have hpos : ¬ size ≤ 0 := by
    have hb := calculateVolumeSize_ok_bounds _ _ hsize
    simp only [minimumVolumeSize, maximumVolumeSize, Gb] at hb
    omega
  have hexp : ExpandVolumeSize p.imagesDir req.volumeId size env.available fs
      = (.error (.generic ("addiditional space (" ++ toString (size - cur) ++
          ") is not available. " ++ toString env.available ++
          " bytes is available on storage")), fs) := by
    simp [ExpandVolumeSize, hid, hpos, hcur, hdelta]
  have hred : NodeExpandVolume p req env fs
      = (.error (.internal, "NodeExpandVolume (" ++ req.volumeId ++
          ") error expand volume size"), fs) := by
    simp [NodeExpandVolume, hid, hcap, hmount, hsize, hexp]
  rw [hred]
  exact ⟨rfl, rfl⟩

/-- Witness for the amended C2: a 1 GiB `vol-a`, 0 pool bytes free, 2 GiB
requested. -/
theorem nodeExpandVolume_no_space_internal_witness :
    statusCodeOf (NodeExpandVolume ⟨"n1", "hostname", "/data"⟩
      ⟨"vol-a", some ⟨.singleNodeWriter, .mount "ext4" []⟩, some ⟨2147483648, 0⟩⟩
      ⟨0, "/dev/loop0: ()"⟩ [("/data/vol-a.img", 1073741824)]).1
      = some GrpcCode.internal
    ∧ (NodeExpandVolume ⟨"n1", "hostname", "/data"⟩
      ⟨"vol-a", some ⟨.singleNodeWriter, .mount "ext4" []⟩, some ⟨2147483648, 0⟩⟩
      ⟨0, "/dev/loop0: ()"⟩ [("/data/vol-a.img", 1073741824)]).2
      = [("/data/vol-a.img", 1073741824)] :=
  nodeExpandVolume_no_space_internal
    ⟨"n1", "hostname", "/data"⟩
    ⟨"vol-a", some ⟨.singleNodeWriter, .mount "ext4" []⟩, some ⟨2147483648, 0⟩⟩
    ⟨0, "/dev/loop0: ()"⟩ [("/data/vol-a.img", 1073741824)]
    ⟨.singleNodeWriter, .mount "ext4" []⟩ "ext4" [] 1073741824 2147483648
    (by decide) rfl rfl (by rfl) (by rfl) (by decide)

lemma create_not_alreadyExists (d id : String) (s : Int) (fs : FS) :
    isAlreadyExistsErr (Create d id s fs).1 = false := by
  by_cases h1 : id = "" <;> by_cases h2 : s = 0 <;>
    by_cases h3 : isFileExists fs (getImageFullPath d id) <;>
    simp [Create, h1, h2, h3, isAlreadyExistsErr]

lemma delete_not_notFound (d id : String) (fs : FS) :
    isNotFoundErr (Delete d id fs).1 = false := by
  by_cases h1 : id = "" <;>
    by_cases h2 : isFileExists fs (getImageFullPath d id) <;>
    simp [Delete, h1, h2, isNotFoundErr]

lemma create_ok_file_present (d id : String) (s : Int) (fs fs2 : FS) (u : Unit)
    (h : Create d id s fs = (.ok u, fs2)) :
    isFileExists fs2 (getImageFullPath d id) = true := by
  by_cases h1 : id = ""
  · simp [Create, h1] at h
  · by_cases h2 : s = 0
    · simp [Create, h1, h2] at h
    · by_cases h3 : isFileExists fs (getImageFullPath d id)
      · simp [Create, h1, h2, h3] at h
        rw [← h]
        exact h3
      · simp [Create, h1, h2, h3] at h
        rw [← h]
        simp only [truncateTool, isFileExists]
        rw [fsLookup_fsSet]
        simp

lemma create_on_existing (d id : String) (s : Int) (fs : FS)
    (h1 : ¬ id = "") (h2 : ¬ s = 0)
    (h3 : isFileExists fs (getImageFullPath d id) = true) :
    Create d id s fs = (.ok (), fs) := by
  simp [Create, h1, h2, h3]

lemma createVolume_ok_stable
    (p : PluginCfg) (req : CreateVolumeRequest) (fs fs2 : FS)
    (resp : CreateVolumeResponse)
    (h : CreateVolume p req fs = (.ok resp, fs2)) :
    CreateVolume p req fs2 = (.ok resp, fs2)
    ∧ isFileExists fs2 (getImageFullPath p.imagesDir req.name) = true := by
  by_cases h1 : req.name = ""
  · simp [CreateVolume, h1] at h
  · by_cases h2 : req.volumeCapabilities.isEmpty
    · simp [CreateVolume, h1, h2] at h
    · cases hcc : checkCapabilities req.name req.volumeCapabilities with
      | some e => simp [CreateVolume, h1, h2, hcc] at h
      | none =>
        cases hp : req.preferred with
        | nil => simp [CreateVolume, h1, h2, hcc, hp] at h
        | cons seg rest =>
          cases hk : segLookup seg p.nodeNameTopologyKey with
          | none => simp [CreateVolume, h1, h2, hcc, hp, hk] at h
          | some nodeName =>
            cases hs : calculateVolumeSize req.capacityRange with
            | error e => simp [CreateVolume, h1, h2, hcc, hp, hk, hs] at h
            | ok size =>
              have hsz : ¬ size = 0 := by
                have hb := calculateVolumeSize_ok_bounds _ _ hs
                simp only [minimumVolumeSize, maximumVolumeSize, Gb] at hb
                omega
              rcases hc : Create p.imagesDir req.name size fs with ⟨res, fs3⟩
              cases res with
              | error e =>
                cases e with
                | volumeAlreadyExists =>
                  have hbad := create_not_alreadyExists p.imagesDir req.name size fs
                  rw [hc] at hbad
                  simp [isAlreadyExistsErr] at hbad
                | volumeNotFound =>
                  simp [CreateVolume, h1, h2, hcc, hp, hk, hs, hc] at h
                | generic msg =>
                  simp [CreateVolume, h1, h2, hcc, hp, hk, hs, hc] at h
              | ok u =>
                simp [CreateVolume, h1, h2, hcc, hp, hk, hs, hc] at h
                obtain ⟨hresp, hfs⟩ := h
                subst hfs
                subst hresp
                have hpresent := create_ok_file_present p.imagesDir req.name size fs fs3 u hc
                have hcE := create_on_existing p.imagesDir req.name size fs3 h1 hsz hpresent
                refine ⟨?_, hpresent⟩
                simp [CreateVolume, h1, h2, hcc, hp, hk, hs, hcE]

/-- C7: Create is idempotent and so is CreateVolume: once a CreateVolume
call has returned success with response `resp` and images directory
`fs2`, every further call with the same request — after any number of
intervening identical calls — returns the same success response and
leaves the images directory exactly `fs2` (the image file is present and
untouched). -/
theorem createVolume_idempotent
    (p : PluginCfg) (req : CreateVolumeRequest) (fs fs2 : FS)
    (resp : CreateVolumeResponse)
    (h : CreateVolume p req fs = (.ok resp, fs2)) (n : Nat) :
    CreateVolume p req (iterCreateVolume p req fs2 n) = (.ok resp, fs2)
    ∧ isFileExists fs2 (getImageFullPath p.imagesDir req.name) = true := by
  induction n with
  | zero => exact createVolume_ok_stable p req fs fs2 resp h
  | succ n ih =>
    have hface : iterCreateVolume p req fs2 (n + 1) = fs2 := by
      simp only [iterCreateVolume]
      rw [ih.1]
    rw [hface]
    exact ⟨(createVolume_ok_stable p req fs fs2 resp h).1,
           (createVolume_ok_stable p req fs fs2 resp h).2⟩

/-- Witness for C7: the scenario-1 request on an empty images directory,
followed by two more identical calls. -/
theorem createVolume_idempotent_witness :
    CreateVolume ⟨"n1", "hostname", "/data"⟩
      ⟨"vol-a", [⟨.singleNodeWriter, .mount "" []⟩], [[("hostname", "n1")]], none⟩
      (iterCreateVolume ⟨"n1", "hostname", "/data"⟩
        ⟨"vol-a", [⟨.singleNodeWriter, .mount "" []⟩], [[("hostname", "n1")]], none⟩
        [("/data/vol-a.img", 1073741824)] 2)
    = (.ok ⟨"vol-a", 1073741824, [("hostname", "n1")]⟩,
       [("/data/vol-a.img", 1073741824)])
    ∧ isFileExists [("/data/vol-a.img", 1073741824)]
        (getImageFullPath "/data" "vol-a") = true :=
  createVolume_idempotent
    ⟨"n1", "hostname", "/data"⟩
    ⟨"vol-a", [⟨.singleNodeWriter, .mount "" []⟩], [[("hostname", "n1")]], none⟩
    ([] : FS) [("/data/vol-a.img", 1073741824)]
    ⟨"vol-a", 1073741824, [("hostname", "n1")]⟩ (by rfl) 2

/-- C10: the wired sparse-file controller never produces the sentinel
errors the RPC fallback branches test for — `Create` never returns
`ErrorVolumeAlreadyExists` and `Delete` never returns
`ErrorVolumeNotFound` — so the already-exists branch of `CreateVolume`
and the not-found branch of `DeleteVolume` are unreachable. -/
theorem controller_sentinels_never_returned :
    (∀ d id : String, ∀ s : Int, ∀ fs : FS,
      isAlreadyExistsErr (Create d id s fs).1 = false)
    ∧ (∀ d id : String, ∀ fs : FS,
      isNotFoundErr (Delete d id fs).1 = false) := by
  exact ⟨create_not_alreadyExists, delete_not_notFound⟩

lemma isMountedLoop_bad_propagation (t : String) (es : List FindmntEntry)
    (acc : Bool) (h : ∃ e ∈ es, e.propagation ≠ "shared") :
    (isMountedLoop t es acc).2.isSome = true := by
  induction es generalizing acc with
  | nil => simp at h
  | cons e rest ih =>
    by_cases hp : e.propagation = "shared"
    · have hrest : ∃ e2 ∈ rest, e2.propagation ≠ "shared" := by
        rcases h with ⟨e2, he2, hbad⟩
        rcases List.mem_cons.mp he2 with heq | hmem
        · exact absurd (heq ▸ hp) hbad
        · exact ⟨e2, hmem, hbad⟩
      simp only [isMountedLoop, hp]
      simpa using ih _ hrest
    · simp [isMountedLoop, hp]

lemma isMountedLoop_true_none (t : String) (es : List FindmntEntry)
    (acc : Bool) (h : isMountedLoop t es acc = (true, none)) :
    acc = true ∨ ∃ e ∈ es, e.target = t := by
  induction es generalizing acc with
  | nil =>
    simp only [isMountedLoop, Prod.mk.injEq] at h
    exact Or.inl h.1
  | cons e rest ih =>
    by_cases hp : e.propagation = "shared"
    · simp only [isMountedLoop, hp] at h
      have hres := ih _ (by simpa using h)
      rcases hres with hacc | ⟨e2, he2, ht⟩
      · rcases Bool.or_eq_true_iff.mp hacc with ha | hmatch
        · exact Or.inl ha
        · exact Or.inr ⟨e, List.mem_cons_self e rest, by simpa using hmatch⟩
      · exact Or.inr ⟨e2, List.mem_cons_of_mem e he2, ht⟩
    · simp [isMountedLoop, hp] at h

/-- C8: `IsMounted` returns `false` without error when the `findmnt`
query reports nothing found — a non-zero exit with empty output, or a
zero exit with empty output; it returns an error whenever any returned
entry's propagation differs from `shared`; and it reports a match
(`true` without error) only when some returned entry's target equals the
queried path. -/
theorem isMounted_contract :
    (∀ t : String, ¬ t = "" →
      IsMounted t .failEmpty = (false, none)
      ∧ IsMounted t .okEmpty = (false, none))
    ∧ (∀ (t : String) (es : List FindmntEntry),
        (∃ e ∈ es, e.propagation ≠ "shared") →
        ((IsMounted t (.okEntries es)).2.isSome = true))
    ∧ (∀ (t : String) (r : FindmntResult),
        IsMounted t r = (true, none) →
        ∃ es, r = .okEntries es ∧ ∃ e ∈ es, e.target = t) := by
  refine ⟨?_, ?_, ?_⟩
  · intro t ht
    exact ⟨by simp [IsMounted, ht], by simp [IsMounted, ht]⟩
  · intro t es h
    by_cases ht : t = ""
    · simp [IsMounted, ht]
    · simp only [IsMounted, if_neg ht]
      exact isMountedLoop_bad_propagation t es false h
  · intro t r h
    by_cases ht : t = ""
    · simp [IsMounted, ht] at h
    · cases r with
      | failEmpty => simp [IsMounted, ht] at h
      | failOutput out => simp [IsMounted, ht] at h
      | okEmpty => simp [IsMounted, ht] at h
      | okBadJson msg => simp [IsMounted, ht] at h
      | okEntries es =>
        simp only [IsMounted, if_neg ht] at h
        rcases isMountedLoop_true_none t es false h with hacc | hfound
        · exact absurd hacc (by simp)
        · exact ⟨es, rfl, hfound⟩

/-- Witness for C8 at concrete inputs: an empty-result query, a
bad-propagation entry list, and a matched shared entry. -/
theorem isMounted_contract_witness :
    (IsMounted "/stage/vol-a" .failEmpty = (false, none)
      ∧ IsMounted "/stage/vol-a" .okEmpty = (false, none))
    ∧ ((IsMounted "/stage/vol-a"
        (.okEntries [⟨"/stage/vol-a", "private", "ext4", "rw"⟩])).2.isSome = true)
    ∧ ∃ es, FindmntResult.okEntries [⟨"/stage/vol-a", "shared", "ext4", "rw"⟩]
          = .okEntries es
        ∧ ∃ e ∈ es, e.target = "/stage/vol-a" :=
  ⟨isMounted_contract.1 "/stage/vol-a" (by decide),
   isMounted_contract.2.1 "/stage/vol-a"
     [⟨"/stage/vol-a", "private", "ext4", "rw"⟩]
     ⟨⟨"/stage/vol-a", "private", "ext4", "rw"⟩, by simp, by decide⟩,
   isMounted_contract.2.2 "/stage/vol-a"
     (.okEntries [⟨"/stage/vol-a", "shared", "ext4", "rw"⟩]) (by rfl)⟩

end CsiLocalSparse
